import Mathlib

/-!
Verification of the xclmgmt management control-plane specification against
the repository sources (`include/uapi/drm/xmgmt_drm.h` and
`drivers/gpu/drm/xocl/xocl_test.c`).  The header fixes the data model
(firewall ids, error records, command codes, ioctl requests); the behavioral
core described by the spec (firewall monitor, clock controller, image loader,
reset coordinator) has no implementation under the sources, so those
operations are modelled from the spec and marked as such.
-/

/-! ## Part 1: the uapi header, `include/uapi/drm/xmgmt_drm.h` -/

/-- enum xclFirewallID - AXI Firewall IDs (header lines 35-40). -/
inductive xclFirewallID where
  | XCL_FW_MGMT_CONTROL
  | XCL_FW_USER_CONTROL
  | XCL_FW_DATAPATH
  | XCL_FW_MAX_LEVEL
deriving DecidableEq, Repr

/-- Value the C compiler assigns to each enumerator: `XCL_FW_MGMT_CONTROL = 0`
is explicit, the rest are consecutive. -/
def xclFirewallID.val : xclFirewallID → Nat
  | .XCL_FW_MGMT_CONTROL => 0
  | .XCL_FW_USER_CONTROL => 1
  | .XCL_FW_DATAPATH => 2
  | .XCL_FW_MAX_LEVEL => 3

/-- XCLMGMT_IOC_MAGIC is the character literal for capital X (header line 77). -/
def XCLMGMT_IOC_MAGIC : Nat := 88

def XCLMGMT_NUM_SUPPORTED_CLOCKS : Nat := 4

def XCLMGMT_NUM_ACTUAL_CLOCKS : Nat := 2

def XCLMGMT_NUM_FIREWALL_IPS : Nat := 3

/-- enum XCLMGMT_IOC_TYPES (header lines 85-95). -/
inductive XCLMGMT_IOC_TYPES where
  | XCLMGMT_IOC_INFO
  | XCLMGMT_IOC_ICAP_DOWNLOAD
  | XCLMGMT_IOC_FREQ_SCALE
  | XCLMGMT_IOC_OCL_RESET
  | XCLMGMT_IOC_HOT_RESET
  | XCLMGMT_IOC_REBOOT
  | XCLMGMT_IOC_ICAP_DOWNLOAD_AXLF
  | XCLMGMT_IOC_ERR_INFO
  | XCLMGMT_IOC_MAX
deriving DecidableEq, Repr

/-- Value the C compiler assigns to each command code: no enumerator carries
an explicit value, so they are consecutive from 0. -/
def XCLMGMT_IOC_TYPES.code : XCLMGMT_IOC_TYPES → Nat
  | .XCLMGMT_IOC_INFO => 0
  | .XCLMGMT_IOC_ICAP_DOWNLOAD => 1
  | .XCLMGMT_IOC_FREQ_SCALE => 2
  | .XCLMGMT_IOC_OCL_RESET => 3
  | .XCLMGMT_IOC_HOT_RESET => 4
  | .XCLMGMT_IOC_REBOOT => 5
  | .XCLMGMT_IOC_ICAP_DOWNLOAD_AXLF => 6
  | .XCLMGMT_IOC_ERR_INFO => 7
  | .XCLMGMT_IOC_MAX => 8

/-- Transfer direction of a Linux ioctl request macro. -/
inductive IocDir where
  | none
  | read
  | write
deriving DecidableEq, Repr

/-- Shape of a Linux ioctl request number as the header builds it: a
direction, the magic type byte, and the command number.  (The size field of
the packed encoding carries no information the claims need and depends on C
struct layout, so it is not modelled.) -/
structure IoctlReq where
  dir : IocDir
  magic : Nat
  nr : Nat
deriving DecidableEq, Repr

/-- XCLMGMT_IOCINFO, built by the header from the INFO command code. -/
def XCLMGMT_IOCINFO : IoctlReq :=
  ⟨IocDir.read, XCLMGMT_IOC_MAGIC, XCLMGMT_IOC_TYPES.XCLMGMT_IOC_INFO.code⟩

/-- XCLMGMT_IOCICAPDOWNLOAD, built from the ICAP_DOWNLOAD command code. -/
def XCLMGMT_IOCICAPDOWNLOAD : IoctlReq :=
  ⟨IocDir.write, XCLMGMT_IOC_MAGIC, XCLMGMT_IOC_TYPES.XCLMGMT_IOC_ICAP_DOWNLOAD.code⟩

/-- XCLMGMT_IOCICAPDOWNLOAD_AXLF, built from the ICAP_DOWNLOAD_AXLF code. -/
def XCLMGMT_IOCICAPDOWNLOAD_AXLF : IoctlReq :=
  ⟨IocDir.write, XCLMGMT_IOC_MAGIC, XCLMGMT_IOC_TYPES.XCLMGMT_IOC_ICAP_DOWNLOAD_AXLF.code⟩

/-- XCLMGMT_IOCFREQSCALE, built from the FREQ_SCALE command code. -/
def XCLMGMT_IOCFREQSCALE : IoctlReq :=
  ⟨IocDir.write, XCLMGMT_IOC_MAGIC, XCLMGMT_IOC_TYPES.XCLMGMT_IOC_FREQ_SCALE.code⟩

/-- XCLMGMT_IOCHOTRESET, built from the HOT_RESET command code. -/
def XCLMGMT_IOCHOTRESET : IoctlReq :=
  ⟨IocDir.none, XCLMGMT_IOC_MAGIC, XCLMGMT_IOC_TYPES.XCLMGMT_IOC_HOT_RESET.code⟩

/-- XCLMGMT_IOCOCLRESET, built from the OCL_RESET command code. -/
def XCLMGMT_IOCOCLRESET : IoctlReq :=
  ⟨IocDir.none, XCLMGMT_IOC_MAGIC, XCLMGMT_IOC_TYPES.XCLMGMT_IOC_OCL_RESET.code⟩

/-- XCLMGMT_IOCREBOOT, built from the REBOOT command code. -/
def XCLMGMT_IOCREBOOT : IoctlReq :=
  ⟨IocDir.none, XCLMGMT_IOC_MAGIC, XCLMGMT_IOC_TYPES.XCLMGMT_IOC_REBOOT.code⟩

/-- XCLMGMT_IOCERRINFO, built from the ERR_INFO command code. -/
def XCLMGMT_IOCERRINFO : IoctlReq :=
  ⟨IocDir.read, XCLMGMT_IOC_MAGIC, XCLMGMT_IOC_TYPES.XCLMGMT_IOC_ERR_INFO.code⟩

/-- The eight request macros the header defines, in header order. -/
def xclmgmtIoctlTable : List IoctlReq :=
  [XCLMGMT_IOCINFO, XCLMGMT_IOCICAPDOWNLOAD, XCLMGMT_IOCICAPDOWNLOAD_AXLF,
   XCLMGMT_IOCFREQSCALE, XCLMGMT_IOCHOTRESET, XCLMGMT_IOCOCLRESET,
   XCLMGMT_IOCREBOOT, XCLMGMT_IOCERRINFO]

/-! ## Part 2: `drivers/gpu/drm/xocl/xocl_test.c`

The whole body of each function sits inside `#if 0 ... #endif`, so the
compiled code is just the declarations and the `return` statements. -/

def xocl_test_interval : Int := 5

def xocl_test_on : Bool := true

/-- xocl_test_thread_main: the loop body is compiled out by `#if 0`; the
function returns 0 and never reads `data` (modelled polymorphically, as the C
argument is an untouched `void *`). -/
def xocl_test_thread_main {α : Type} (_data : α) : Int := 0

/-- xocl_init_test_thread: `ret` is initialised to 0, the kthread start is
compiled out by `#if 0`, and `ret` is returned; the device is untouched.  The
device record is abstract (its type lives in `xocl_drv.h`, outside the
sources), so the state is carried polymorphically. -/
def xocl_init_test_thread {α : Type} (xdev : α) : Int × α := (0, xdev)

/-- xocl_fini_test_thread: same shape as init, everything gated out. -/
def xocl_fini_test_thread {α : Type} (xdev : α) : Int × α := (0, xdev)

/-! ## Part 3: the behavioral core, modelled from the spec

The spec describes a Firewall Monitor, Clock Controller, Image Loader and
Reset Coordinator operating on a shared DeviceState.  None of this logic
appears under the sources (the header only declares the interface records),
so each operation below is modelled from the spec. -/

/-- Modelled from the spec: FirewallDomain, the closed set of the three
protection domains (spec section 3); the implementation is missing from the
sources. -/
inductive FirewallDomain where
  | ManagementControl
  | UserControl
  | Datapath
deriving DecidableEq, Repr

/-- Modelled from the spec: FirewallTripRecord {domain, statusCode,
timestamp} (spec section 3); the implementation is missing from the
sources.  The timestamp is the monotonic-clock reading supplied with the
trip notification. -/
structure FirewallTripRecord where
  domain : FirewallDomain
  statusCode : Nat
  timestamp : Nat
deriving DecidableEq, Repr

/-- Modelled from the spec: the PCI error counters of an ErrorReport (spec
section 3); the implementation is missing from the sources. -/
structure PciErrorCounters where
  deviceStatus : Nat
  uncorrectableCount : Nat
  correctableCount : Nat
deriving DecidableEq, Repr

/-- Modelled from the spec: ErrorReport {trips (at most 8), firewallLevel,
pciErrorCounters} (spec section 3); the implementation is missing from the
sources. -/
structure ErrorReport where
  trips : List FirewallTripRecord
  firewallLevel : Nat
  pciErrorCounters : PciErrorCounters
deriving DecidableEq, Repr

/-- Per-domain tripped flags of the DeviceState, one Bool per member of the
closed FirewallDomain set. -/
structure TrippedSet where
  mgmt : Bool
  user : Bool
  datapath : Bool
deriving DecidableEq, Repr

def TrippedSet.get (t : TrippedSet) : FirewallDomain → Bool
  | .ManagementControl => t.mgmt
  | .UserControl => t.user
  | .Datapath => t.datapath

def TrippedSet.put (t : TrippedSet) (d : FirewallDomain) (b : Bool) : TrippedSet :=
  match d with
  | .ManagementControl => { t with mgmt := b }
  | .UserControl => { t with user := b }
  | .Datapath => { t with datapath := b }

/-- Current frequencies of the four supported clocks
(XCLMGMT_NUM_SUPPORTED_CLOCKS = 4), one field per slot. -/
structure ClockFreqs where
  c0 : Nat
  c1 : Nat
  c2 : Nat
  c3 : Nat
deriving DecidableEq, Repr

/-- struct xclmgmt_ioc_freqscaling (header lines 184-187): a PR region and
four target frequencies; a zero entry means leave that clock untouched. -/
structure xclmgmt_ioc_freqscaling where
  ocl_region : Nat
  ocl_target_freq : ClockFreqs
deriving DecidableEq, Repr

/-- Modelled from the spec: ImageDescriptor, an opaque container blob with a
header the loader validates (magic/format, size bounds) and a payload it
streams (spec sections 3 and 4.2); the implementation is missing from the
sources. -/
structure ImageDescriptor where
  magicOk : Bool
  sizeOk : Bool
  payload : List Nat
deriving DecidableEq, Repr

/-- Modelled from the spec: the Reset Coordinator's state machine states
(spec section 4.3); the implementation is missing from the sources.
Quiescing and Restoring are the transient waiting phases; a timeout there
lands in Failed. -/
inductive ResetPhase where
  | Idle
  | Quiescing
  | Reset
  | Restoring
  | Failed
deriving DecidableEq, Repr

/-- Modelled from the spec: DeviceState (spec section 3) — trip log, per-
domain trip set, clock frequencies, exclusivity flag for in-flight
downloads/resets, reset-machine phase, whether a completed reset has
resolved the hardware condition behind the trips, the current image, and
the snapshot-only fields (severity level, PCI counters); the implementation
is missing from the sources. -/
structure DeviceState where
  trips : List FirewallTripRecord
  tripped : TrippedSet
  clockFreq : ClockFreqs
  exclusive : Bool
  resetPhase : ResetPhase
  hwResolved : Bool
  image : Option ImageDescriptor
  firewallLevel : Nat
  pci : PciErrorCounters
deriving DecidableEq, Repr

/-- DeviceState as created at device attach: no trips, nothing tripped,
clocks at their power-on values, exclusivity free, reset machine Idle. -/
def initState : DeviceState where
  trips := []
  tripped := ⟨false, false, false⟩
  clockFreq := ⟨100, 200, 0, 0⟩
  exclusive := false
  resetPhase := ResetPhase.Idle
  hwResolved := true
  image := none
  firewallLevel := 0
  pci := ⟨0, 0, 0⟩

/-! ### Firewall Monitor (spec section 4.1), modelled from the spec -/

/-- Arguments of one `observe` call: the tripped domain, the status code
read from the firewall, and the monotonic-clock reading. -/
structure ObserveCall where
  domain : FirewallDomain
  statusCode : Nat
  timestamp : Nat
deriving DecidableEq, Repr

def recordOf (c : ObserveCall) : FirewallTripRecord :=
  ⟨c.domain, c.statusCode, c.timestamp⟩

/-- Append one record to the bounded trip log: when the log already holds
its capacity of 8 records, the oldest one is evicted first (FIFO). -/
def pushTrip (t : List FirewallTripRecord) (r : FirewallTripRecord) :
    List FirewallTripRecord :=
  if 8 ≤ t.length then t.drop 1 ++ [r] else t ++ [r]

/-- Modelled from the spec: `observe(domain, statusCode)` of the Firewall
Monitor (spec section 4.1); the implementation is missing from the sources.
Appends a FirewallTripRecord to the bounded log (FIFO eviction beyond 8),
marks the domain tripped immediately, and marks the underlying hardware
condition unresolved until a reset completes. -/
def observe (s : DeviceState) (c : ObserveCall) : DeviceState :=
  { s with
    trips := pushTrip s.trips (recordOf c)
    tripped := s.tripped.put c.domain true
    hwResolved := false }

/-- A whole sequence of `observe` calls, oldest first. -/
def observeSeq (s : DeviceState) (calls : List ObserveCall) : DeviceState :=
  calls.foldl observe s

/-- Modelled from the spec: `isTripped(domain)` (spec section 4.1). -/
def isTripped (s : DeviceState) (d : FirewallDomain) : Bool :=
  s.tripped.get d

/-- Modelled from the spec: `snapshot()` of the Firewall Monitor (spec
section 4.1); the implementation is missing from the sources.  Assembles
the ErrorReport from the current trip log, severity level and PCI
counters. -/
def snapshot (s : DeviceState) : ErrorReport :=
  ⟨s.trips, s.firewallLevel, s.pci⟩

/-- Error of a failed `clear` (spec section 7). -/
inductive FwError where
  | StillActive
deriving DecidableEq, Repr

/-- Modelled from the spec: `clear(domain)` of the Firewall Monitor (spec
section 4.1); the implementation is missing from the sources.  Fails with
StillActive while the hardware condition behind the trip has not been
resolved by a completed reset; on success the domain stops being tripped. -/
def clear (d : FirewallDomain) (s : DeviceState) :
    Except FwError Unit × DeviceState :=
  if s.hwResolved then
    (Except.ok (), { s with tripped := s.tripped.put d false })
  else
    (Except.error FwError.StillActive, s)

/-- A sequence of `clear` calls, keeping only the final state. -/
def clearSeq (ds : List FirewallDomain) (s : DeviceState) : DeviceState :=
  ds.foldl (fun st d => (clear d st).2) s

/-! ### Clock Controller (spec section 4.4), modelled from the spec -/

/-- Errors of `scale` (spec sections 4.4 and 7).  The spec names no error
code for a request whose region is not 0, only that the region is validated;
UnsupportedRegion stands for that rejection. -/
inductive ClockError where
  | UnsupportedRegion
  | PartiallyInvalid
  | DomainTripped
deriving DecidableEq, Repr

/-- A hardware-supported-range oracle: whether frequency `f` is supported on
clock slot `i`.  The range is a property of the external device-capability
collaborator, so it is a parameter, not hardcoded. -/
def ClockCap : Type := Nat → Nat → Bool

/-- True when some non-zero target of the request falls outside the
hardware-supported range for its clock slot. -/
def hasInvalidTarget (cap : ClockCap) (t : ClockFreqs) : Bool :=
  (decide (t.c0 ≠ 0) && !cap 0 t.c0) || (decide (t.c1 ≠ 0) && !cap 1 t.c1) ||
  (decide (t.c2 ≠ 0) && !cap 2 t.c2) || (decide (t.c3 ≠ 0) && !cap 3 t.c3)

/-- Elementwise application of the validated targets: a zero entry leaves
the corresponding current frequency untouched. -/
def applyTargets (t : ClockFreqs) (c : ClockFreqs) : ClockFreqs :=
  ⟨if t.c0 = 0 then c.c0 else t.c0,
   if t.c1 = 0 then c.c1 else t.c1,
   if t.c2 = 0 then c.c2 else t.c2,
   if t.c3 = 0 then c.c3 else t.c3⟩

/-- Modelled from the spec: `scale(request, DeviceState)` of the Clock
Controller (spec section 4.4); the implementation is missing from the
sources.  In the spec's order: validates `region == 0`; validates each
non-zero target against the hardware-supported range, rejecting the whole
request with PartiallyInvalid when any target is out of range; rejects with
DomainTripped when the Datapath or ManagementControl domain is tripped; on
success updates the clock record, zero entries left untouched. -/
def scale (cap : ClockCap) (req : xclmgmt_ioc_freqscaling) (s : DeviceState) :
    Except ClockError Unit × DeviceState :=
  if req.ocl_region ≠ 0 then
    (Except.error ClockError.UnsupportedRegion, s)
  else if hasInvalidTarget cap req.ocl_target_freq then
    (Except.error ClockError.PartiallyInvalid, s)
  else if s.tripped.datapath || s.tripped.mgmt then
    (Except.error ClockError.DomainTripped, s)
  else
    (Except.ok (), { s with clockFreq := applyTargets req.ocl_target_freq s.clockFreq })

/-! ### Image Loader (spec section 4.2), modelled from the spec -/

/-- Errors of `download` (spec sections 4.2 and 7). -/
inductive ImageError where
  | DomainTripped
  | Busy
  | InvalidContainer
  | PartialReconfiguration
deriving DecidableEq, Repr

/-- Container-header validation of step (2): magic/format check and size
bounds. -/
def validHeader (d : ImageDescriptor) : Bool :=
  d.magicOk && d.sizeOk

/-- Modelled from the spec: the entry phase of `download` up to and
including step (1) (spec section 4.2); the implementation is missing from
the sources.  The preconditions are checked in the spec's order: the
Datapath domain must not be tripped, and the exclusivity flag must not
already be held — a holder in flight makes the call fail with Busy at once,
leaving the state untouched (no queueing).  Otherwise the flag is acquired.
This is the linearization point two concurrent callers race on. -/
def downloadAcquire (s : DeviceState) : Except ImageError Unit × DeviceState :=
  if s.tripped.datapath then
    (Except.error ImageError.DomainTripped, s)
  else if s.exclusive then
    (Except.error ImageError.Busy, s)
  else
    (Except.ok (), { s with exclusive := true })

/-- Modelled from the spec: `download(descriptor, DeviceState)` of the Image
Loader (spec section 4.2); the implementation is missing from the sources.
After the acquire phase: step (2) validates the container header, failing
fast with InvalidContainer and no state mutation beyond releasing the flag;
steps (3)-(5) — quiesce, chunked streaming to the reconfiguration engine,
restore — are a hardware interaction whose overall outcome the external
collaborator decides, abstracted as the `hwOk` input: on success the new
image is recorded, on failure PartialReconfiguration is surfaced; step (6)
releases exclusivity on every exit path. -/
def download (hwOk : Bool) (d : ImageDescriptor) (s : DeviceState) :
    Except ImageError Unit × DeviceState :=
  match downloadAcquire s with
  | (Except.error e, s1) => (Except.error e, s1)
  | (Except.ok _, s1) =>
    if !validHeader d then
      (Except.error ImageError.InvalidContainer, { s1 with exclusive := false })
    else if hwOk then
      (Except.ok (), { s1 with image := some d, exclusive := false })
    else
      (Except.error ImageError.PartialReconfiguration, { s1 with exclusive := false })

/-! ### Reset Coordinator (spec section 4.3), modelled from the spec -/

/-- Errors of the reset operations (spec sections 4.3 and 7). -/
inductive ResetError where
  | Timeout
  | Busy
deriving DecidableEq, Repr

/-- Modelled from the spec: `quiesce()` of the Reset Coordinator (spec
section 4.3); the implementation is missing from the sources.  Enters the
Quiescing phase from Idle (or from Failed, when an operator starts a fresh
sequence); whether the hardware acknowledges the drain within the bounded
wait is decided by the hardware, abstracted as the `ack` input.  On
acknowledgment the machine reaches the Reset phase; on timeout it
transitions to Failed — the attempt is reported, never retried here.  A
machine already mid-sequence refuses with Busy. -/
def quiesce (ack : Bool) (s : DeviceState) : Except ResetError Unit × DeviceState :=
  if s.resetPhase ≠ ResetPhase.Idle ∧ s.resetPhase ≠ ResetPhase.Failed then
    (Except.error ResetError.Busy, s)
  else if ack then
    (Except.ok (), { s with resetPhase := ResetPhase.Reset })
  else
    (Except.error ResetError.Timeout,
     { s with resetPhase := ResetPhase.Failed, hwResolved := false })

/-- Modelled from the spec: `restore()` of the Reset Coordinator (spec
section 4.3); the implementation is missing from the sources.  Only legal
from the Reset phase; deasserts reset and waits for readiness, the bounded
hardware acknowledgment abstracted as `ack`.  On acknowledgment the machine
returns to Idle and the hardware condition behind any trips counts as
resolved by this completed reset; on timeout it transitions to Failed. -/
def restore (ack : Bool) (s : DeviceState) : Except ResetError Unit × DeviceState :=
  if s.resetPhase ≠ ResetPhase.Reset then
    (Except.error ResetError.Busy, s)
  else if ack then
    (Except.ok (), { s with resetPhase := ResetPhase.Idle, hwResolved := true })
  else
    (Except.error ResetError.Timeout,
     { s with resetPhase := ResetPhase.Failed, hwResolved := false })

/-- Modelled from the spec: `hotReset()` (spec section 4.3); the
implementation is missing from the sources.  Takes the exclusivity token
(concurrent resets fail with Busy rather than queueing), then runs the full
sequence quiesce, reset, restore, the two bounded hardware acknowledgments
abstracted as `ackQ` and `ackR`; the token is released on every exit path. -/
def hotReset (ackQ ackR : Bool) (s : DeviceState) : Except ResetError Unit × DeviceState :=
  if s.exclusive then
    (Except.error ResetError.Busy, s)
  else
    let s0 : DeviceState := { s with exclusive := true }
    match quiesce ackQ s0 with
    | (Except.error e, s1) => (Except.error e, { s1 with exclusive := false })
    | (Except.ok _, s1) =>
      match restore ackR s1 with
      | (Except.error e, s2) => (Except.error e, { s2 with exclusive := false })
      | (Except.ok _, s2) => (Except.ok (), { s2 with exclusive := false })

/-! ## Part 4: theorems -/

/-- One pushTrip keeps the log within its capacity of 8. -/
theorem pushTrip_length_le (t : List FirewallTripRecord) (r : FirewallTripRecord)
    (h : t.length ≤ 8) : (pushTrip t r).length ≤ 8 := by
  unfold pushTrip
  by_cases hle : 8 ≤ t.length
  · simp [hle]
    omega
  · simp [hle]
    omega

/-- Folding pushTrip over new records keeps exactly the last 8 elements of
the old log followed by the new records. -/
theorem foldl_pushTrip_eq (rs : List FirewallTripRecord) :
    ∀ t : List FirewallTripRecord, t.length ≤ 8 →
      rs.foldl pushTrip t = (t ++ rs).drop ((t ++ rs).length - 8) := by
  induction rs with
  | nil =>
    intro t h
    simp [Nat.sub_eq_zero_of_le h]
  | cons r rs ih =>
    intro t h
    rw [List.foldl_cons]
    by_cases hle : 8 ≤ t.length
    · have ht8 : t.length = 8 := Nat.le_antisymm h hle
      obtain ⟨a, t0, rfl⟩ : ∃ a t0, t = a :: t0 := by
        cases t with
        | nil => simp at ht8
        | cons a t0 => exact ⟨a, t0, rfl⟩
      have h7 : t0.length = 7 := by simpa using ht8
      have hp : pushTrip (a :: t0) r = t0 ++ [r] := by
        simp [pushTrip, h7]
      rw [hp, ih (t0 ++ [r]) (by simp [h7])]
      have e1 : ((t0 ++ [r]) ++ rs).length - 8 = rs.length := by
        simp only [List.length_append, List.length_cons, List.length_nil, h7]
        omega
      have e2 : ((a :: t0) ++ r :: rs).length - 8 = rs.length + 1 := by
        simp only [List.length_append, List.length_cons, List.length_nil, h7]
        omega
      rw [e1, e2, List.cons_append, List.drop_succ_cons, List.append_assoc,
        List.singleton_append]
    · have hp : pushTrip t r = t ++ [r] := by
        simp [pushTrip, hle]
      rw [hp, ih (t ++ [r])
        (by simp only [List.length_append, List.length_cons, List.length_nil]; omega)]
      rw [List.append_assoc, List.singleton_append]

/-- The trip log of a state after a sequence of observes is the fold of
pushTrip over the observed records. -/
theorem observeSeq_trips (calls : List ObserveCall) :
    ∀ s : DeviceState,
      (observeSeq s calls).trips = (calls.map recordOf).foldl pushTrip s.trips := by
  induction calls with
  | nil => intro s; rfl
  | cons c cs ih =>
    intro s
    show (observeSeq (observe s c) cs).trips = _
    rw [ih (observe s c)]
    rfl

/-- C1: for every sequence of observe calls longer than 8, the snapshot's
trip list is exactly the 8 most recently observed records in order (FIFO
eviction), and after every sequence of observes the log never exceeds 8. -/
theorem c1_trip_log_fifo (s : DeviceState) (calls : List ObserveCall)
    (h : s.trips.length ≤ 8) :
    (snapshot (observeSeq s calls)).trips.length ≤ 8
    ∧ (8 < calls.length →
        (snapshot (observeSeq s calls)).trips
          = (calls.map recordOf).drop (calls.length - 8)) := by
  have hform := foldl_pushTrip_eq (calls.map recordOf) s.trips h
  constructor
  · show (observeSeq s calls).trips.length ≤ 8
    rw [observeSeq_trips, hform, List.length_drop]
    omega
  · intro h8
    show (observeSeq s calls).trips = _
    rw [observeSeq_trips, hform]
    have h8m : 8 ≤ (calls.map recordOf).length := by
      rw [List.length_map]
      omega
    have e : (s.trips ++ calls.map recordOf).length - 8
        = s.trips.length + ((calls.map recordOf).length - 8) := by
      simp only [List.length_append]
      omega
    rw [e, List.drop_append, List.length_map]

/-- Nine observe calls used to exercise the FIFO bound concretely. -/
def c1Calls : List ObserveCall :=
  [⟨FirewallDomain.Datapath, 10, 0⟩, ⟨FirewallDomain.ManagementControl, 11, 1⟩,
   ⟨FirewallDomain.UserControl, 12, 2⟩, ⟨FirewallDomain.Datapath, 13, 3⟩,
   ⟨FirewallDomain.Datapath, 14, 4⟩, ⟨FirewallDomain.UserControl, 15, 5⟩,
   ⟨FirewallDomain.ManagementControl, 16, 6⟩, ⟨FirewallDomain.Datapath, 17, 7⟩,
   ⟨FirewallDomain.Datapath, 18, 8⟩]

/-- Witness for C1 at the attach-time state and a concrete 9-call
sequence. -/
theorem c1_trip_log_fifo_witness :
    initState.trips.length ≤ 8
    ∧ ((snapshot (observeSeq initState c1Calls)).trips.length ≤ 8
       ∧ (8 < c1Calls.length →
           (snapshot (observeSeq initState c1Calls)).trips
             = (c1Calls.map recordOf).drop (c1Calls.length - 8))) :=
  ⟨by decide, c1_trip_log_fifo initState c1Calls (by decide)⟩

/-- C8: the periodic test-event generator is inert — the thread main
returns 0 without depending on its data argument, and init/fini return 0
leaving the device untouched. -/
theorem c8_test_thread_inert :
    (∀ (α : Type) (a b : α),
        xocl_test_thread_main a = 0
        ∧ xocl_test_thread_main a = xocl_test_thread_main b)
    ∧ (∀ (α : Type) (x : α), xocl_init_test_thread x = (0, x))
    ∧ (∀ (α : Type) (x : α), xocl_fini_test_thread x = (0, x)) :=
  ⟨fun _ _ _ => ⟨rfl, rfl⟩, fun _ _ => rfl, fun _ _ => rfl⟩

/-- C9: the firewall id enumeration is closed with exactly the three
domains coded consecutively from 0, and its sentinel XCL_FW_MAX_LEVEL is 3,
equal to XCLMGMT_NUM_FIREWALL_IPS. -/
theorem c9_firewall_enum :
    (∀ x : xclFirewallID,
        x = xclFirewallID.XCL_FW_MGMT_CONTROL ∨ x = xclFirewallID.XCL_FW_USER_CONTROL
        ∨ x = xclFirewallID.XCL_FW_DATAPATH ∨ x = xclFirewallID.XCL_FW_MAX_LEVEL)
    ∧ xclFirewallID.XCL_FW_MGMT_CONTROL.val = 0
    ∧ xclFirewallID.XCL_FW_USER_CONTROL.val = 1
    ∧ xclFirewallID.XCL_FW_DATAPATH.val = 2
    ∧ xclFirewallID.XCL_FW_MAX_LEVEL.val = 3
    ∧ xclFirewallID.XCL_FW_MAX_LEVEL.val = XCLMGMT_NUM_FIREWALL_IPS := by
  refine ⟨fun x => ?_, rfl, rfl, rfl, rfl, rfl⟩
  cases x <;> simp

/-- The eight request kinds of the command-code enumeration, in header
order, with the sentinel XCLMGMT_IOC_MAX left out. -/
def xclmgmtCommandKinds : List XCLMGMT_IOC_TYPES :=
  [XCLMGMT_IOC_TYPES.XCLMGMT_IOC_INFO, XCLMGMT_IOC_TYPES.XCLMGMT_IOC_ICAP_DOWNLOAD,
   XCLMGMT_IOC_TYPES.XCLMGMT_IOC_FREQ_SCALE, XCLMGMT_IOC_TYPES.XCLMGMT_IOC_OCL_RESET,
   XCLMGMT_IOC_TYPES.XCLMGMT_IOC_HOT_RESET, XCLMGMT_IOC_TYPES.XCLMGMT_IOC_REBOOT,
   XCLMGMT_IOC_TYPES.XCLMGMT_IOC_ICAP_DOWNLOAD_AXLF,
   XCLMGMT_IOC_TYPES.XCLMGMT_IOC_ERR_INFO]

/-- C10: the command-code enumeration has exactly eight request kinds
numbered consecutively 0 through 7, the sentinel XCLMGMT_IOC_MAX is
8 = 7 + 1 (image download appearing as two distinct variants), and the
eight ioctl request macros carry pairwise distinct command numbers, each
taken from its code of the enumeration. -/
theorem c10_command_codes :
    xclmgmtCommandKinds.map XCLMGMT_IOC_TYPES.code = [0, 1, 2, 3, 4, 5, 6, 7]
    ∧ xclmgmtCommandKinds.length = 8
    ∧ (∀ x : XCLMGMT_IOC_TYPES,
        x ∈ xclmgmtCommandKinds ∨ x = XCLMGMT_IOC_TYPES.XCLMGMT_IOC_MAX)
    ∧ XCLMGMT_IOC_TYPES.XCLMGMT_IOC_MAX.code = 8
    ∧ XCLMGMT_IOC_TYPES.XCLMGMT_IOC_MAX.code = 7 + 1
    ∧ XCLMGMT_IOC_TYPES.XCLMGMT_IOC_ICAP_DOWNLOAD
        ≠ XCLMGMT_IOC_TYPES.XCLMGMT_IOC_ICAP_DOWNLOAD_AXLF
    ∧ (xclmgmtIoctlTable.map IoctlReq.nr).Nodup
    ∧ xclmgmtIoctlTable.map IoctlReq.nr
        = [XCLMGMT_IOC_TYPES.XCLMGMT_IOC_INFO.code,
           XCLMGMT_IOC_TYPES.XCLMGMT_IOC_ICAP_DOWNLOAD.code,
           XCLMGMT_IOC_TYPES.XCLMGMT_IOC_ICAP_DOWNLOAD_AXLF.code,
           XCLMGMT_IOC_TYPES.XCLMGMT_IOC_FREQ_SCALE.code,
           XCLMGMT_IOC_TYPES.XCLMGMT_IOC_HOT_RESET.code,
           XCLMGMT_IOC_TYPES.XCLMGMT_IOC_OCL_RESET.code,
           XCLMGMT_IOC_TYPES.XCLMGMT_IOC_REBOOT.code,
           XCLMGMT_IOC_TYPES.XCLMGMT_IOC_ERR_INFO.code]
    := by
  refine ⟨by decide, by decide, fun x => ?_, by decide, by decide, by decide,
    by decide, by decide⟩
  cases x <;> simp [xclmgmtCommandKinds]

/-- A concrete hardware-supported-range oracle used by the concrete
instances below: every clock supports 100 through 600 MHz. -/
def capStd : ClockCap := fun _ f => decide (100 ≤ f ∧ f ≤ 600)

/-- C6: scale rejects every request whose region is not 0, regardless of the
target values and of the device state, leaving the state untouched. -/
theorem c6_region_rejected (cap : ClockCap) (req : xclmgmt_ioc_freqscaling)
    (s : DeviceState) (h : req.ocl_region ≠ 0) :
    (scale cap req s).1 = Except.error ClockError.UnsupportedRegion
    ∧ (scale cap req s).2 = s := by
  simp [scale, h]

/-- Witness for C6: a region-1 request is rejected on the attach-time
state. -/
theorem c6_region_rejected_witness :
    (1 : Nat) ≠ 0
    ∧ ((scale capStd ⟨1, ⟨300, 0, 0, 0⟩⟩ initState).1
        = Except.error ClockError.UnsupportedRegion
       ∧ (scale capStd ⟨1, ⟨300, 0, 0, 0⟩⟩ initState).2 = initState) :=
  ⟨by decide, c6_region_rejected capStd ⟨1, ⟨300, 0, 0, 0⟩⟩ initState (by decide)⟩

/-- Request with an out-of-range target (700 is above capStd's 600) in a
region the controller does not support. -/
def c2BadReq : xclmgmt_ioc_freqscaling := ⟨1, ⟨700, 0, 0, 0⟩⟩

/-- C2 counterexample: a request whose first target is out of range but
whose region field is 1 satisfies the claim's premise, yet scale rejects it
for its region, not with PartiallyInvalid. -/
theorem c2_counterexample :
    hasInvalidTarget capStd c2BadReq.ocl_target_freq = true
    ∧ (scale capStd c2BadReq initState).1 ≠ Except.error ClockError.PartiallyInvalid := by
  constructor
  · decide
  · intro hcontra
    simp [scale, c2BadReq] at hcontra

/-- C2 (amended): for every request with region 0 in which some non-zero
target is outside the supported range, scale returns PartiallyInvalid and
leaves every entry of the clock-frequency record — indeed the whole state —
unchanged. -/
theorem c2_all_or_nothing (cap : ClockCap) (req : xclmgmt_ioc_freqscaling)
    (s : DeviceState) (hr : req.ocl_region = 0)
    (hbad : hasInvalidTarget cap req.ocl_target_freq = true) :
    (scale cap req s).1 = Except.error ClockError.PartiallyInvalid
    ∧ (scale cap req s).2.clockFreq = s.clockFreq
    ∧ (scale cap req s).2 = s := by
  simp [scale, hr, hbad]

/-- Witness for C2 (amended): region 0, first target 700 out of capStd's
range. -/
theorem c2_all_or_nothing_witness :
    (0 : Nat) = 0
    ∧ hasInvalidTarget capStd (⟨700, 0, 200, 0⟩ : ClockFreqs) = true
    ∧ ((scale capStd ⟨0, ⟨700, 0, 200, 0⟩⟩ initState).1
        = Except.error ClockError.PartiallyInvalid
       ∧ (scale capStd ⟨0, ⟨700, 0, 200, 0⟩⟩ initState).2.clockFreq = initState.clockFreq
       ∧ (scale capStd ⟨0, ⟨700, 0, 200, 0⟩⟩ initState).2 = initState) :=
  ⟨rfl, by decide, c2_all_or_nothing capStd ⟨0, ⟨700, 0, 200, 0⟩⟩ initState rfl (by decide)⟩

/-- A state in which the Datapath firewall domain has tripped (one record in
the log, condition not yet resolved by a reset). -/
def trippedState : DeviceState :=
  { initState with
    trips := [⟨FirewallDomain.Datapath, 5, 0⟩]
    tripped := ⟨false, false, true⟩
    hwResolved := false }

/-- C5 counterexample: on a state whose Datapath domain is tripped, scale
with region 0 and all-zero targets does not succeed — the controller
rejects with DomainTripped (spec section 4.4), so the claim's quantification
over every DeviceState fails. -/
theorem c5_counterexample :
    (scale capStd ⟨0, ⟨0, 0, 0, 0⟩⟩ trippedState).1
      = Except.error ClockError.DomainTripped
    ∧ (scale capStd ⟨0, ⟨0, 0, 0, 0⟩⟩ trippedState).1 ≠ Except.ok () :=
  ⟨rfl, fun h => Except.noConfusion h⟩

/-- C5 (amended): for every DeviceState in which neither the Datapath nor
the ManagementControl domain is tripped, scale with region 0 and all-zero
targets succeeds and leaves every clock-frequency entry — indeed the whole
state — unchanged. -/
theorem c5_zero_noop (cap : ClockCap) (req : xclmgmt_ioc_freqscaling)
    (s : DeviceState) (hr : req.ocl_region = 0)
    (hz : req.ocl_target_freq = ⟨0, 0, 0, 0⟩)
    (hd : s.tripped.datapath = false) (hm : s.tripped.mgmt = false) :
    (scale cap req s).1 = Except.ok ()
    ∧ (scale cap req s).2.clockFreq = s.clockFreq
    ∧ (scale cap req s).2 = s := by
  simp [scale, hr, hz, hasInvalidTarget, applyTargets, hd, hm]

/-- Witness for C5 (amended) on the attach-time state. -/
theorem c5_zero_noop_witness :
    (0 : Nat) = 0
    ∧ (⟨0, 0, 0, 0⟩ : ClockFreqs) = (⟨0, 0, 0, 0⟩ : ClockFreqs)
    ∧ initState.tripped.datapath = false
    ∧ initState.tripped.mgmt = false
    ∧ ((scale capStd ⟨0, ⟨0, 0, 0, 0⟩⟩ initState).1 = Except.ok ()
       ∧ (scale capStd ⟨0, ⟨0, 0, 0, 0⟩⟩ initState).2.clockFreq = initState.clockFreq
       ∧ (scale capStd ⟨0, ⟨0, 0, 0, 0⟩⟩ initState).2 = initState) :=
  ⟨rfl, rfl, rfl, rfl,
   c5_zero_noop capStd ⟨0, ⟨0, 0, 0, 0⟩⟩ initState rfl rfl rfl rfl⟩

/-- A well-formed image container. -/
def descGood : ImageDescriptor := ⟨true, true, [1, 2, 3]⟩

/-- C3: download on a state whose Datapath domain is tripped at the start
of the call fails with DomainTripped; the exclusivity flag, the image, and
the whole state are left untouched. -/
theorem c3_download_tripped (hwOk : Bool) (d : ImageDescriptor)
    (s : DeviceState) (h : s.tripped.datapath = true) :
    (download hwOk d s).1 = Except.error ImageError.DomainTripped
    ∧ (download hwOk d s).2.exclusive = s.exclusive
    ∧ (download hwOk d s).2.image = s.image
    ∧ (download hwOk d s).2 = s := by
  simp [download, downloadAcquire, h]

/-- Witness for C3 on the tripped state. -/
theorem c3_download_tripped_witness :
    trippedState.tripped.datapath = true
    ∧ ((download true descGood trippedState).1 = Except.error ImageError.DomainTripped
       ∧ (download true descGood trippedState).2.exclusive = trippedState.exclusive
       ∧ (download true descGood trippedState).2.image = trippedState.image
       ∧ (download true descGood trippedState).2 = trippedState) :=
  ⟨rfl, c3_download_tripped true descGood trippedState rfl⟩

/-- C4: with the exclusivity flag free (and the Datapath domain untripped),
the first of two concurrent download calls acquires the flag at its
linearization point; a second, full download call issued while the first
still holds the flag returns Busy at once — the model is a total function,
so no blocking wait exists — and leaves the state exactly as it was, so
nothing is queued. -/
theorem c4_concurrent_download_busy (hwOk : Bool) (d : ImageDescriptor)
    (s : DeviceState) (hex : s.exclusive = false)
    (hd : s.tripped.datapath = false) :
    (downloadAcquire s).1 = Except.ok ()
    ∧ (downloadAcquire s).2.exclusive = true
    ∧ download hwOk d (downloadAcquire s).2
        = (Except.error ImageError.Busy, (downloadAcquire s).2) := by
  simp [download, downloadAcquire, hex, hd]

/-- Witness for C4 on the attach-time state. -/
theorem c4_concurrent_download_busy_witness :
    initState.exclusive = false
    ∧ initState.tripped.datapath = false
    ∧ ((downloadAcquire initState).1 = Except.ok ()
       ∧ (downloadAcquire initState).2.exclusive = true
       ∧ download true descGood (downloadAcquire initState).2
           = (Except.error ImageError.Busy, (downloadAcquire initState).2)) :=
  ⟨rfl, rfl, c4_concurrent_download_busy true descGood initState rfl rfl⟩

/-- A sequence of clear calls on a state whose hardware condition is
unresolved changes nothing. -/
theorem clearSeq_unresolved (ds : List FirewallDomain) :
    ∀ s : DeviceState, s.hwResolved = false → clearSeq ds s = s := by
  induction ds with
  | nil => intro s _; rfl
  | cons d ds ih =>
    intro s h
    show clearSeq ds (clear d s).2 = s
    have h2 : (clear d s).2 = s := by simp [clear, h]
    rw [h2]
    exact ih s h

/-- C7: a timeout injected while Quiescing, or while Restoring, drives the
reset machine to the terminal Failed state and surfaces Timeout (the model
makes no further attempt); from the Failed state every clear call on any
domain — and any whole sequence of clear calls — fails with StillActive and
changes nothing, until a fresh reset sequence completes fully, after which
the machine is Idle again and clear succeeds. -/
theorem c7_failed_blocks_clear (s : DeviceState)
    (hIdle : s.resetPhase = ResetPhase.Idle) (hex : s.exclusive = false) :
    ((quiesce false s).1 = Except.error ResetError.Timeout
      ∧ (quiesce false s).2.resetPhase = ResetPhase.Failed)
    ∧ ((restore false (quiesce true s).2).1 = Except.error ResetError.Timeout
      ∧ (restore false (quiesce true s).2).2.resetPhase = ResetPhase.Failed)
    ∧ (∀ ds : List FirewallDomain, clearSeq ds (quiesce false s).2 = (quiesce false s).2)
    ∧ (∀ (ds : List FirewallDomain) (d : FirewallDomain),
        (clear d (clearSeq ds (quiesce false s).2)).1 = Except.error FwError.StillActive)
    ∧ ((hotReset true true (quiesce false s).2).1 = Except.ok ()
      ∧ (hotReset true true (quiesce false s).2).2.resetPhase = ResetPhase.Idle
      ∧ ∀ d : FirewallDomain,
          (clear d (hotReset true true (quiesce false s).2).2).1 = Except.ok ()) := by
  have hq : quiesce false s
      = (Except.error ResetError.Timeout,
         { s with resetPhase := ResetPhase.Failed, hwResolved := false }) := by
    simp [quiesce, hIdle]
  have hqt : quiesce true s = (Except.ok (), { s with resetPhase := ResetPhase.Reset }) := by
    simp [quiesce, hIdle]
  refine ⟨⟨by rw [hq], by rw [hq]⟩, ⟨?_, ?_⟩, ?_, ?_, ?_, ?_, ?_⟩
  · rw [hqt]
    simp [restore]
  · rw [hqt]
    simp [restore]
  · intro ds
    rw [hq]
    exact clearSeq_unresolved ds _ rfl
  · intro ds d
    rw [hq, clearSeq_unresolved ds _ rfl]
    simp [clear]
  · rw [hq]
    simp [hotReset, quiesce, restore, hex]
  · rw [hq]
    simp [hotReset, quiesce, restore, hex]
  · intro d
    rw [hq]
    simp [hotReset, quiesce, restore, clear, hex]

/-- Witness for C7 on the attach-time state. -/
theorem c7_failed_blocks_clear_witness :
    initState.resetPhase = ResetPhase.Idle
    ∧ initState.exclusive = false
    ∧ (((quiesce false initState).1 = Except.error ResetError.Timeout
        ∧ (quiesce false initState).2.resetPhase = ResetPhase.Failed)
      ∧ ((restore false (quiesce true initState).2).1 = Except.error ResetError.Timeout
        ∧ (restore false (quiesce true initState).2).2.resetPhase = ResetPhase.Failed)
      ∧ (∀ ds : List FirewallDomain,
          clearSeq ds (quiesce false initState).2 = (quiesce false initState).2)
      ∧ (∀ (ds : List FirewallDomain) (d : FirewallDomain),
          (clear d (clearSeq ds (quiesce false initState).2)).1
            = Except.error FwError.StillActive)
      ∧ ((hotReset true true (quiesce false initState).2).1 = Except.ok ()
        ∧ (hotReset true true (quiesce false initState).2).2.resetPhase = ResetPhase.Idle
        ∧ ∀ d : FirewallDomain,
            (clear d (hotReset true true (quiesce false initState).2).2).1
              = Except.ok ())) :=
  ⟨rfl, rfl, c7_failed_blocks_clear initState rfl rfl⟩
